import Mathlib

/-!
Shallow embedding of the Phaser WebGL batched-rendering pipeline core:
the RenderNodeManager batch-state machine and registry, the
BatchHandlerPointLight accumulator, and the SubmitterTile vertex composer.
Nodes and drawing contexts are identified by natural numbers; JavaScript
object identity becomes equality of identifiers, and JavaScript null or
undefined becomes Option.none. Floating-point vertex data is modelled
over the rationals.
-/

/-- State of the RenderNodeManager batch-state machine: the node currently
accumulating a batch (null when none) and the drawing context stored for it. -/
structure ManagerState where
  currentBatchNode : Option Nat
  currentBatchDrawingContext : Option Nat
deriving DecidableEq, Repr

/-- An invocation of the run method of a node by the manager, carrying the
drawing context that was passed to it. -/
inductive RunEvent where
  | run (node : Nat) (ctx : Option Nat)
deriving DecidableEq, Repr

/-- Embeds RenderNodeManager.setCurrentBatchNode: if the requested node is
already current, do nothing; otherwise run the previous current node (if any)
with its stored drawing context, then install the new node, storing the given
drawing context when the node is non-null and null otherwise. Returns the new
state and the list of run invocations performed during the call, in order,
all of which happen before the new pair is installed. -/
def setCurrentBatchNode (s : ManagerState) (node : Option Nat)
    (drawingContext : Option Nat) : ManagerState × List RunEvent :=
  if s.currentBatchNode = node then
    (s, [])
  else
    let evts : List RunEvent :=
      match s.currentBatchNode with
      | none => []
      | some prev => [RunEvent.run prev s.currentBatchDrawingContext]
    ({ currentBatchNode := node,
       currentBatchDrawingContext := if node.isSome then drawingContext else none },
     evts)

/-- Embeds RenderNodeManager.startStandAloneRender: clears the current batch
node, flushing any pending batch. -/
def startStandAloneRender (s : ManagerState) : ManagerState × List RunEvent :=
  setCurrentBatchNode s none none

/-- A JavaScript number: either an actual rational value or NaN. -/
inductive JSNum where
  | num (q : ℚ)
  | nan
deriving DecidableEq, Repr

/-- A JavaScript argument value relevant to setMaxParallelTextureUnits:
either a number or undefined (the value of an omitted argument). -/
inductive JSValue where
  | number (q : ℚ)
  | undefined
deriving DecidableEq, Repr

/-- The JavaScript ToNumber coercion on the modelled values:
undefined coerces to NaN. -/
def toNumber : JSValue → JSNum
  | JSValue.number q => JSNum.num q
  | JSValue.undefined => JSNum.nan

/-- JavaScript Math.min on two arguments: NaN if either argument is NaN. -/
def jsMin : JSNum → JSNum → JSNum
  | JSNum.num a, JSNum.num b => JSNum.num (min a b)
  | _, _ => JSNum.nan

/-- JavaScript Math.max on two arguments: NaN if either argument is NaN. -/
def jsMax : JSNum → JSNum → JSNum
  | JSNum.num a, JSNum.num b => JSNum.num (max a b)
  | _, _ => JSNum.nan

/-- Embeds RenderNodeManager.setMaxParallelTextureUnits: stores
Math.max(1, Math.min(value, renderer.maxTextures)) and emits the stored value
to listeners. Returns the pair (stored value, emitted value). -/
def setMaxParallelTextureUnits (maxTextures : ℚ) (value : JSValue) :
    JSNum × JSNum :=
  let stored := jsMax (JSNum.num 1) (jsMin (toNumber value) (JSNum.num maxTextures))
  (stored, stored)

/-- Association-list lookup for the registry maps. Registered nodes are
JavaScript objects, hence truthy, so presence of a key models truthiness
of the stored property. -/
def assocFind (l : List (String × Nat)) (key : String) : Option Nat :=
  match l with
  | [] => none
  | (k, v) :: rest => if k = key then some v else assocFind rest key

/-- The property names every plain JavaScript object inherits from
Object.prototype. A property read on a fresh object literal falls back to
these, and each of them is a function or an object, hence truthy. -/
def objectPrototypeProps : List String :=
  ["constructor", "hasOwnProperty", "isPrototypeOf", "propertyIsEnumerable",
   "toLocaleString", "toString", "valueOf", "__defineGetter__",
   "__defineSetter__", "__lookupGetter__", "__lookupSetter__", "__proto__"]

/-- The result of a JavaScript property read on a registry map: an own
(registered) entry, a member inherited from Object.prototype, or undefined. -/
inductive PropValue where
  | own (node : Nat)
  | inheritedMember (propName : String)
  | undefinedProp
deriving DecidableEq, Repr

/-- JavaScript truthiness of a property read: registered nodes and inherited
Object.prototype members are objects or functions, hence truthy; undefined
is falsy. -/
def truthy : PropValue → Bool
  | PropValue.undefinedProp => false
  | _ => true

/-- The RenderNodeManager registry: the map of constructed nodes and the map
of node constructors, each keyed by node name. Nodes and constructors are
identified by natural numbers; the empty maps stand for fresh object
literals, which still inherit from Object.prototype. -/
structure Registry where
  nodes : List (String × Nat)
  nodeConstructors : List (String × Nat)
deriving DecidableEq, Repr

/-- A property read on a registry map as JavaScript performs it: the own
entry when present, else the member inherited from Object.prototype, else
undefined. -/
def propRead (l : List (String × Nat)) (key : String) : PropValue :=
  match assocFind l key with
  | some v => PropValue.own v
  | none =>
    if key ∈ objectPrototypeProps then PropValue.inheritedMember key
    else PropValue.undefinedProp

/-- What getNode hands back: a registered or constructed node, a member
inherited from Object.prototype that leaked through the truthiness check,
or null. -/
inductive NodeRef where
  | node (id : Nat)
  | inheritedMember (propName : String)
  | null
deriving DecidableEq, Repr

/-- Embeds RenderNodeManager.addNode: the duplicate check is JavaScript
truthiness of the property read, which also sees the members inherited from
Object.prototype, so it throws for a name like toString even on a fresh
registry; otherwise the node is stored as an own property. The debug-mode
propagation to the added node does not affect the registry maps. -/
def addNode (r : Registry) (addedName : String) (node : Nat) :
    Except String Registry :=
  if truthy (propRead r.nodes addedName) then
    Except.error ("node " ++ addedName ++ " already exists.")
  else
    Except.ok { r with nodes := r.nodes ++ [(addedName, node)] }

/-- Embeds RenderNodeManager.addNodeConstructor: like addNode, the duplicate
check is JavaScript truthiness of the property read including inherited
Object.prototype members; otherwise the constructor is stored. -/
def addNodeConstructor (r : Registry) (addedName : String) (ctor : Nat) :
    Except String Registry :=
  if truthy (propRead r.nodeConstructors addedName) then
    Except.error ("node constructor " ++ addedName ++ " already exists.")
  else
    Except.ok { r with nodeConstructors := r.nodeConstructors ++ [(addedName, ctor)] }

/-- Constructing a node from a registered constructor: new ctor(this).
The resulting node instance is identified by the constructor identifier. -/
def constructNode (ctor : Nat) : Nat := ctor

/-- Embeds RenderNodeManager.getNode: the truthy node-map read is returned
directly, so a name like toString yields the inherited Object.prototype
member; otherwise a truthy constructor-map read constructs the node via
addNode (which cannot fail there, since the node map read was undefined)
and returns it; otherwise null is returned. The inherited constructor-map
branch cannot execute: a key whose node-map read was undefined is not an
Object.prototype name (propRead_undefined_not_inheritedMember below). -/
def getNode (r : Registry) (lookupName : String) : Registry × NodeRef :=
  match propRead r.nodes lookupName with
  | PropValue.own node => (r, NodeRef.node node)
  | PropValue.inheritedMember p => (r, NodeRef.inheritedMember p)
  | PropValue.undefinedProp =>
    match propRead r.nodeConstructors lookupName with
    | PropValue.own ctor =>
      let node := constructNode ctor
      match addNode r lookupName node with
      | Except.ok r2 => (r2, NodeRef.node node)
      | Except.error _ => (r, NodeRef.node node)
    | PropValue.inheritedMember _ => (r, NodeRef.null)
    | PropValue.undefinedProp => (r, NodeRef.null)

/-- Embeds RenderNodeManager.hasNode: double negation of the truthy
property reads, so inherited Object.prototype members count as existing. -/
def hasNode (r : Registry) (lookupName : String) (constructed : Bool) : Bool :=
  truthy (propRead r.nodes lookupName) ||
    (!constructed && truthy (propRead r.nodeConstructors lookupName))

/-- The six element indices written for quad i by
BatchHandlerPointLight._generateElementIndices. The target is a Uint16Array,
so every stored index is reduced modulo 2 ^ 16. -/
def quadElementIndices (i : Nat) : List Nat :=
  [4 * i % 65536, 4 * i % 65536, (4 * i + 1) % 65536,
   (4 * i + 2) % 65536, (4 * i + 3) % 65536, (4 * i + 3) % 65536]

/-- Embeds BatchHandlerPointLight._generateElementIndices: the loop writes
the six indices of quad i, for i from 0 to instances - 1, consecutively into
a Uint16Array of length 6 * instances. -/
def generateElementIndices (instances : Nat) : List Nat :=
  List.flatten ((List.range instances).map quadElementIndices)

/-- A node of the recorded debug graph, as read by debugToString: a node
name and the ordered list of children. The JavaScript parent pointers are
only used while the graph is built, not by the formatter. -/
inductive DebugNode where
  | mk (nodeName : String) (children : List DebugNode)

/-- The indentation prefix used by debugToString: two spaces per level. -/
def indentString (indent : Nat) : String :=
  String.join (List.replicate indent "  ")

mutual

/-- Embeds the inner formatNode function of debugToString: the indented node
name, a newline, then the children formatted one level deeper. -/
def formatNode : DebugNode → Nat → String
  | DebugNode.mk n cs, indent =>
    indentString indent ++ n ++ "\n" ++ formatChildren cs (indent + 1)

/-- The loop over node.children inside formatNode, concatenating the
formatted children in order. -/
def formatChildren : List DebugNode → Nat → String
  | [], _ => ""
  | c :: cs, indent => formatNode c indent ++ formatChildren cs indent

end

/-- Embeds RenderNodeManager.debugToString: formats the recorded debug graph.
When debugGraph is null (as in the initial state, before setDebug(true) ever
ran), formatNode dereferences null by reading node.name, which in JavaScript
throws a TypeError; this is modelled by the error branch. -/
def debugToString (debugGraph : Option DebugNode) : Except String String :=
  match debugGraph with
  | none => Except.error "TypeError: cannot read name of null"
  | some node => Except.ok (formatNode node 0)

/-- The debugGraph field as set by the RenderNodeManager constructor:
null until setDebug(true) records a frame. -/
def initialDebugGraph : Option DebugNode := none

/-- The fields of a DrawingContext read by BatchHandlerPointLight: an
identity for the manager bookkeeping, plus the camera and viewport data the
uniforms are bound from. -/
structure DrawingCtx where
  ctxId : Nat
  cameraAlpha : ℚ
  cameraZoom : ℚ
  width : ℚ
  height : ℚ
deriving DecidableEq, Repr

/-- The fields of a PointLight game object read by batch. -/
structure Light where
  colorR : ℚ
  colorG : ℚ
  colorB : ℚ
  intensity : ℚ
  radius : ℚ
  attenuation : ℚ
  alpha : ℚ
deriving DecidableEq, Repr

/-- An externally visible GPU-side effect of the handler: uniform binding,
projection-matrix setup, vertex-buffer upload, an instanced draw call, or the
run call the manager issues on a previously current node when the current
batch pointer moves. -/
inductive GLEvent where
  | setUniform (uniform : String)
  | setProjectionMatrix (w h : ℚ)
  | bufferUpdate (bytes : Nat)
  | draw (indexCount : Nat)
  | nodeRun (node : Nat) (ctx : Option Nat)
deriving DecidableEq, Repr

/-- State of a BatchHandlerPointLight: the fill level, the capacity and
per-instance sizes fixed at construction, and the CPU-side vertex buffer
view (a Float32Array, modelled over the rationals). -/
structure Handler where
  instanceCount : Nat
  instancesPerBatch : Nat
  floatsPerInstance : Nat
  bytesPerInstance : Nat
  indicesPerInstance : Nat
  vertexViewF32 : Array ℚ
deriving DecidableEq, Repr

/-- A single store into the Float32Array view. Stores past the end of a
JavaScript typed array are silently ignored, which the out-of-bounds branch
mirrors. -/
def writeF32 (a : Array ℚ) (i : Nat) (v : ℚ) : Array ℚ :=
  if h : i < a.size then a.set ⟨i, h⟩ v else a

/-- Consecutive stores into the view starting at the given offset, one value
per post-incremented index, as in the vertexViewF32 writes of batch. -/
def writeSeq (a : Array ℚ) (off : Nat) : List ℚ → Array ℚ
  | [] => a
  | v :: rest => writeSeq (writeF32 a off v) (off + 1) rest

/-- The arguments of one BatchHandlerPointLight.batch call: the drawing
context, the light, the four quad corners and the light position. -/
structure BatchInput where
  ctx : DrawingCtx
  light : Light
  xTL : ℚ
  yTL : ℚ
  xBL : ℚ
  yBL : ℚ
  xTR : ℚ
  yTR : ℚ
  xBR : ℚ
  yBR : ℚ
  lightX : ℚ
  lightY : ℚ
deriving DecidableEq, Repr

/-- The forty floats one batch call writes for its four vertices, in source
order: bottom left, top left, bottom right, top right, each vertex carrying
position, light position, radius, attenuation and premultiplied color. -/
def vertexValues (inp : BatchInput) : List ℚ :=
  let r := inp.light.colorR * inp.light.intensity
  let g := inp.light.colorG * inp.light.intensity
  let b := inp.light.colorB * inp.light.intensity
  let a := inp.ctx.cameraAlpha * inp.light.alpha
  let radius := inp.light.radius
  let attenuation := inp.light.attenuation
  [inp.xBL, inp.yBL, inp.lightX, inp.lightY, radius, attenuation, r, g, b, a,
   inp.xTL, inp.yTL, inp.lightX, inp.lightY, radius, attenuation, r, g, b, a,
   inp.xBR, inp.yBR, inp.lightX, inp.lightY, radius, attenuation, r, g, b, a,
   inp.xTR, inp.yTR, inp.lightX, inp.lightY, radius, attenuation, r, g, b, a]

/-- Embeds BatchHandlerPointLight.onRunBegin: binds the camera zoom,
resolution and projection-matrix uniforms for the drawing context. -/
def onRunBegin (ctx : DrawingCtx) : List GLEvent :=
  [GLEvent.setUniform "uCameraZoom",
   GLEvent.setUniform "uResolution",
   GLEvent.setProjectionMatrix ctx.width ctx.height,
   GLEvent.setUniform "uProjectionMatrix"]

/-- Modelled from the spec: the base-class onRunEnd hook of RenderNode is not
under src/. Per the spec it is symmetric teardown and state restore only; it
changes no accumulation state and issues no draw call, so it contributes no
tracked events. -/
def onRunEnd (_ctx : DrawingCtx) : List GLEvent := []

/-- Embeds BatchHandlerPointLight.run: a no-op when instanceCount is 0;
otherwise binds the uniforms, uploads instanceCount * bytesPerInstance bytes
of vertex data, issues one draw call over
instanceCount * indicesPerInstance indices, resets instanceCount to 0 and
runs the teardown hook. -/
def Handler.run (h : Handler) (ctx : DrawingCtx) : Handler × List GLEvent :=
  if h.instanceCount = 0 then
    (h, [])
  else
    ({ h with instanceCount := 0 },
     onRunBegin ctx
       ++ [GLEvent.bufferUpdate (h.instanceCount * h.bytesPerInstance)]
       ++ [GLEvent.draw (h.instanceCount * h.indicesPerInstance)]
       ++ onRunEnd ctx)

/-- A BatchHandlerPointLight together with the manager it reports to. The
handler is registered with the manager under the node identifier hid. -/
structure System where
  mgr : ManagerState
  hid : Nat
  handler : Handler
deriving DecidableEq, Repr

/-- Manager-issued run invocations seen as GPU-side events: when the manager
flushes a previously current node, that node runs with its stored context. -/
def managerEvents (evts : List RunEvent) : List GLEvent :=
  evts.map fun e => match e with
    | RunEvent.run n c => GLEvent.nodeRun n c

/-- Embeds BatchHandlerPointLight.batch: on the first instance since the
last flush, registers this handler as the current batch node (flushing
whatever was previously current); writes the forty floats of the instance at
the next free slot; increments instanceCount; and, when instanceCount has
reached instancesPerBatch, runs (flushes) immediately before returning. -/
def System.batch (sys : System) (inp : BatchInput) : System × List GLEvent :=
  let mgrStep :=
    if sys.handler.instanceCount = 0 then
      setCurrentBatchNode sys.mgr (some sys.hid) (some inp.ctx.ctxId)
    else
      (sys.mgr, [])
  let evts1 := managerEvents mgrStep.2
  let h1 : Handler :=
    { sys.handler with
      vertexViewF32 :=
        writeSeq sys.handler.vertexViewF32
          (sys.handler.instanceCount * sys.handler.floatsPerInstance)
          (vertexValues inp),
      instanceCount := sys.handler.instanceCount + 1 }
  if h1.instanceCount = h1.instancesPerBatch then
    let runStep := Handler.run h1 inp.ctx
    (⟨mgrStep.1, sys.hid, runStep.1⟩, evts1 ++ runStep.2)
  else
    (⟨mgrStep.1, sys.hid, h1⟩, evts1)

/-- A sequence of batch calls, returning the final system and all events in
order. -/
def System.batchN (sys : System) : List BatchInput → System × List GLEvent
  | [] => (sys, [])
  | inp :: rest =>
    let step := System.batch sys inp
    let next := System.batchN step.1 rest
    (next.1, step.2 ++ next.2)

/-- Whether an event is an instanced draw call. -/
def isDraw : GLEvent → Bool
  | GLEvent.draw _ => true
  | _ => false

/-- Whether an event flushes accumulated work: a draw call of this handler
or a manager-issued run of another node. -/
def isFlush : GLEvent → Bool
  | GLEvent.draw _ => true
  | GLEvent.nodeRun _ _ => true
  | _ => false

/-- The number of draw calls among the events. -/
def drawCount (evts : List GLEvent) : Nat := (evts.filter isDraw).length

/-- The number of flush-like events (draw calls and manager-issued runs). -/
def flushCount (evts : List GLEvent) : Nat := (evts.filter isFlush).length

/-- The index counts of the draw calls among the events, in order. -/
def drawSizes (evts : List GLEvent) : List Nat :=
  evts.filterMap fun e => match e with
    | GLEvent.draw n => some n
    | _ => none

/-- A freshly constructed handler: empty buffer, fill level zero. -/
def initHandler (capacity fpi bpi ipi bufLen : Nat) : Handler :=
  { instanceCount := 0,
    instancesPerBatch := capacity,
    floatsPerInstance := fpi,
    bytesPerInstance := bpi,
    indicesPerInstance := ipi,
    vertexViewF32 := Array.mkArray bufLen 0 }

/-- A fresh system: no batch is current on the manager and the handler is
empty. The handler carries node identifier 0. -/
def initSystem (capacity fpi bpi ipi bufLen : Nat) : System :=
  { mgr := { currentBatchNode := none, currentBatchDrawingContext := none },
    hid := 0,
    handler := initHandler capacity fpi bpi ipi bufLen }

/-- The tint data a tinter node exposes after running: fill mode and the
four corner tints as packed 32-bit colors. -/
structure TinterData where
  tintFill : Bool
  tintTopLeft : Nat
  tintBottomLeft : Nat
  tintTopRight : Nat
  tintBottomRight : Nat
deriving DecidableEq, Repr

/-- The UV rectangle a texturer node exposes after running. -/
structure UVSource where
  u0 : ℚ
  v0 : ℚ
  u1 : ℚ
  v1 : ℚ
deriving DecidableEq, Repr

/-- The data a texturer node exposes after running: the resolved GL texture
of the frame source and the UV rectangle. -/
structure TexturerData where
  glTexture : Nat
  uvSource : UVSource
deriving DecidableEq, Repr

/-- The data a transformer node exposes after running: the eight transformed
quad coordinates. -/
structure TransformerData where
  quad : Array ℚ
deriving DecidableEq, Repr

/-- The game-object fields SubmitterTile.run reads when no tinter node is
supplied. -/
structure GameObjectData where
  tintFill : Bool
deriving DecidableEq, Repr

/-- The positional argument list of the batch call SubmitterTile.run issues
to the resolved batch handler. -/
structure BatchCall where
  texture : Nat
  xTL : ℚ
  yTL : ℚ
  xBL : ℚ
  yBL : ℚ
  xTR : ℚ
  yTR : ℚ
  xBR : ℚ
  yBR : ℚ
  uvX : ℚ
  uvY : ℚ
  uvW : ℚ
  uvH : ℚ
  uTL : ℚ
  vTL : ℚ
  uBL : ℚ
  vBL : ℚ
  uTR : ℚ
  vTR : ℚ
  uBR : ℚ
  vBR : ℚ
  tintFill : Bool
  tintTopLeft : Nat
  tintBottomLeft : Nat
  tintTopRight : Nat
  tintBottomRight : Nat

/-- Modelled from the spec: Utils.getTintAppendFloatAlpha is not under src/.
Per the spec, tints are packed 32-bit color plus alpha values, and the
default tint is the full-white tint attenuated only by camera alpha: the
alpha byte derived from the float alpha occupies the top 8 bits and the RGB
part of the color the low 24 bits. -/
def getTintAppendFloatAlpha (rgb : Nat) (alpha : ℚ) : Nat :=
  (Int.toNat ⌊alpha * 255⌋ % 256) * 2 ^ 24 + rgb % 2 ^ 24

/-- Embeds the data flow of SubmitterTile.run after the texturer and
transformer stages have produced their data: when a tinter is supplied its
tint fields are forwarded; otherwise the tint fill flag of the game object
is used and all four corner tints are the default full-white tint attenuated
by the camera alpha. The quad corners are forwarded in order TL, BL, TR, BR,
reading the transformed quad at positions 0 to 7. -/
def submitterTileRun (ctx : DrawingCtx) (gameObject : GameObjectData)
    (texturerNode : TexturerData) (transformerNode : TransformerData)
    (tinterNode : Option TinterData) : BatchCall :=
  let cameraAlpha := ctx.cameraAlpha
  let tints :=
    match tinterNode with
    | some t =>
      (t.tintFill, t.tintTopLeft, t.tintBottomLeft, t.tintTopRight,
       t.tintBottomRight)
    | none =>
      let tint := getTintAppendFloatAlpha 0xffffffff cameraAlpha
      (gameObject.tintFill, tint, tint, tint, tint)
  let quad := transformerNode.quad
  let uv := texturerNode.uvSource
  { texture := texturerNode.glTexture,
    xTL := quad.getD 0 0, yTL := quad.getD 1 0,
    xBL := quad.getD 2 0, yBL := quad.getD 3 0,
    xTR := quad.getD 6 0, yTR := quad.getD 7 0,
    xBR := quad.getD 4 0, yBR := quad.getD 5 0,
    uvX := uv.u0, uvY := uv.v0, uvW := uv.u1 - uv.u0, uvH := uv.v1 - uv.v0,
    uTL := uv.u0, vTL := uv.v0,
    uBL := uv.u0, vBL := uv.v1,
    uTR := uv.u1, vTR := uv.v0,
    uBR := uv.u1, vBR := uv.v1,
    tintFill := tints.1,
    tintTopLeft := tints.2.1,
    tintBottomLeft := tints.2.2.1,
    tintTopRight := tints.2.2.2.1,
    tintBottomRight := tints.2.2.2.2 }

/-- The manager invariant of a system whose handler either holds the current
batch slot or the slot is clear. -/
def MgrGood (sys : System) : Prop :=
  sys.mgr.currentBatchNode = none ∨ sys.mgr.currentBatchNode = some sys.hid

/-- A sample drawing context used for concrete witnesses. -/
def sampleCtx : DrawingCtx := { ctxId := 7, cameraAlpha := 1, cameraZoom := 1, width := 100, height := 50 }

/-- A sample point light used for concrete witnesses. -/
def sampleLight : Light :=
  { colorR := 1, colorG := 1 / 2, colorB := 1 / 4, intensity := 2,
    radius := 30, attenuation := 5, alpha := 1 }

/-- A sample batch call argument list used for concrete witnesses. -/
def sampleInput : BatchInput :=
  { ctx := sampleCtx, light := sampleLight,
    xTL := 0, yTL := 0, xBL := 0, yBL := 1, xTR := 1, yTR := 0,
    xBR := 1, yBR := 1, lightX := 5, lightY := 5 }

/-- C7: for every numeric argument v, setMaxParallelTextureUnits stores the
clamp of v into the range from 1 to renderer.maxTextures and emits the
clamped value to listeners; in particular 0 clamps to 1 and
maxTextures + 5 clamps to maxTextures. -/
theorem setMaxParallelTextureUnits_clamps (maxTextures v : ℚ)
    (hM : 1 ≤ maxTextures) :
    setMaxParallelTextureUnits maxTextures (JSValue.number v)
      = (JSNum.num (max 1 (min v maxTextures)),
         JSNum.num (max 1 (min v maxTextures)))
  ∧ 1 ≤ max 1 (min v maxTextures)
  ∧ max 1 (min v maxTextures) ≤ maxTextures
  ∧ setMaxParallelTextureUnits maxTextures (JSValue.number 0)
      = (JSNum.num 1, JSNum.num 1)
  ∧ setMaxParallelTextureUnits maxTextures (JSValue.number (maxTextures + 5))
      = (JSNum.num maxTextures, JSNum.num maxTextures) := by
  refine ⟨rfl, le_max_left _ _, max_le hM (min_le_right _ _), ?_, ?_⟩
  · have h0 : min (0 : ℚ) maxTextures = 0 := min_eq_left (by linarith)
    simp [setMaxParallelTextureUnits, jsMax, jsMin, toNumber, h0]
  · have h5 : min (maxTextures + 5) maxTextures = maxTextures :=
      min_eq_right (by linarith)
    have hmx : max (1 : ℚ) maxTextures = maxTextures := max_eq_right hM
    simp [setMaxParallelTextureUnits, jsMax, jsMin, toNumber, h5, hmx]

/-- Witness for C7 at maxTextures 8 and v 3. -/
theorem setMaxParallelTextureUnits_clamps_witness :
    setMaxParallelTextureUnits 8 (JSValue.number 3)
      = (JSNum.num (max 1 (min 3 8)), JSNum.num (max 1 (min 3 8)))
  ∧ (1 : ℚ) ≤ max 1 (min 3 8)
  ∧ max 1 (min (3 : ℚ) 8) ≤ 8
  ∧ setMaxParallelTextureUnits 8 (JSValue.number 0)
      = (JSNum.num 1, JSNum.num 1)
  ∧ setMaxParallelTextureUnits 8 (JSValue.number (8 + 5))
      = (JSNum.num 8, JSNum.num 8) :=
  setMaxParallelTextureUnits_clamps 8 3 (by norm_num)

/-- C9: calling setMaxParallelTextureUnits with the argument omitted, so
that value is undefined, stores NaN: Math.min of undefined and maxTextures
is NaN and Math.max of 1 and NaN is NaN. A value inside the clamping range
is stored only when an actual number is passed. -/
theorem setMaxParallelTextureUnits_undefined_nan (maxTextures q : ℚ) :
    jsMin (toNumber JSValue.undefined) (JSNum.num maxTextures) = JSNum.nan
  ∧ jsMax (JSNum.num 1) JSNum.nan = JSNum.nan
  ∧ setMaxParallelTextureUnits maxTextures JSValue.undefined
      = (JSNum.nan, JSNum.nan)
  ∧ setMaxParallelTextureUnits maxTextures (JSValue.number q)
      = (JSNum.num (max 1 (min q maxTextures)),
         JSNum.num (max 1 (min q maxTextures))) :=
  ⟨rfl, rfl, rfl, rfl⟩

/-- C10: debugToString on the initial manager state, where debugGraph is
still null because setDebug(true) never ran, throws a TypeError instead of
returning a string; whenever the debug graph is non-null the call returns
the newline-delimited, two-space-indented tree of node names. -/
theorem debugToString_null_graph :
    debugToString initialDebugGraph
      = Except.error "TypeError: cannot read name of null"
  ∧ (∀ g : DebugNode, debugToString (some g) = Except.ok (formatNode g 0))
  ∧ debugToString
      (some (DebugNode.mk "[Render Tree Root]"
        [DebugNode.mk "Camera" [DebugNode.mk "ListCompositor" []]]))
      = Except.ok "[Render Tree Root]\n  Camera\n    ListCompositor\n" := by
  refine ⟨rfl, fun g => rfl, ?_⟩
  simp only [debugToString, formatNode, formatChildren, indentString]
  rfl

/-- C8: when SubmitterTile.run is called with no tinter node, the four
corner tints forwarded to the batch handler are identical and equal the
default full-white tint attenuated only by the camera alpha of the drawing
context, while the tint fill flag comes from the game object. -/
theorem submitterTile_default_tint (ctx : DrawingCtx) (go : GameObjectData)
    (tex : TexturerData) (tra : TransformerData) :
    (submitterTileRun ctx go tex tra none).tintTopLeft
      = getTintAppendFloatAlpha 0xffffffff ctx.cameraAlpha
  ∧ (submitterTileRun ctx go tex tra none).tintBottomLeft
      = (submitterTileRun ctx go tex tra none).tintTopLeft
  ∧ (submitterTileRun ctx go tex tra none).tintTopRight
      = (submitterTileRun ctx go tex tra none).tintTopLeft
  ∧ (submitterTileRun ctx go tex tra none).tintBottomRight
      = (submitterTileRun ctx go tex tra none).tintTopLeft
  ∧ (submitterTileRun ctx go tex tra none).tintFill = go.tintFill :=
  ⟨rfl, rfl, rfl, rfl, rfl⟩

/-- Unfolding of the index generator for one more instance: the indices of
the first n quads followed by the six indices of quad n. -/
lemma generateElementIndices_succ (n : Nat) :
    generateElementIndices (n + 1)
      = generateElementIndices n ++ quadElementIndices n := by
  simp [generateElementIndices, List.range_succ]

/-- The index generator emits six indices per instance. -/
lemma generateElementIndices_length (n : Nat) :
    (generateElementIndices n).length = 6 * n := by
  induction n with
  | zero => rfl
  | succ k ih =>
    rw [generateElementIndices_succ, List.length_append, ih, quadElementIndices]
    simp
    ring

/-- The six indices emitted for quad i inside a larger index buffer are
exactly the six indices of that quad. -/
lemma generateElementIndices_segment (n i : Nat) (h : i < n) :
    ((generateElementIndices n).drop (6 * i)).take 6 = quadElementIndices i := by
  induction n with
  | zero => exact absurd h (Nat.not_lt_zero i)
  | succ k ih =>
    rw [generateElementIndices_succ]
    rcases Nat.lt_succ_iff_lt_or_eq.mp h with hlt | heq
    · have hdrop : 6 * i ≤ (generateElementIndices k).length := by
        rw [generateElementIndices_length]; omega
      rw [List.drop_append_of_le_length hdrop]
      have htake : 6 ≤ ((generateElementIndices k).drop (6 * i)).length := by
        rw [List.length_drop, generateElementIndices_length]; omega
      rw [List.take_append_of_le_length htake]
      exact ih hlt
    · subst heq
      have hlen : 6 * i = (generateElementIndices i).length :=
        (generateElementIndices_length i).symm
      rw [hlen, List.drop_left]
      rfl

/-- C6 amended: for every instance count N, _generateElementIndices
produces exactly 6N indices, and the six indices of quad i are, in order,
4i, 4i, 4i+1, 4i+2, 4i+3, 4i+3, each reduced modulo 2 ^ 16 by the Uint16
storage; the literal unreduced pattern holds exactly when 4i + 3 fits in
16 bits, that is for all i when N does not exceed 16384. -/
theorem generateElementIndices_pattern (n i : Nat) (h : i < n) :
    (generateElementIndices n).length = 6 * n
  ∧ ((generateElementIndices n).drop (6 * i)).take 6 = quadElementIndices i
  ∧ (4 * i + 3 < 65536 →
      ((generateElementIndices n).drop (6 * i)).take 6
        = [4 * i, 4 * i, 4 * i + 1, 4 * i + 2, 4 * i + 3, 4 * i + 3]) := by
  refine ⟨generateElementIndices_length n, generateElementIndices_segment n i h, ?_⟩
  intro hfit
  rw [generateElementIndices_segment n i h, quadElementIndices]
  have e0 : 4 * i % 65536 = 4 * i := Nat.mod_eq_of_lt (by omega)
  have e1 : (4 * i + 1) % 65536 = 4 * i + 1 := Nat.mod_eq_of_lt (by omega)
  have e2 : (4 * i + 2) % 65536 = 4 * i + 2 := Nat.mod_eq_of_lt (by omega)
  have e3 : (4 * i + 3) % 65536 = 4 * i + 3 := Nat.mod_eq_of_lt (by omega)
  rw [e0, e1, e2, e3]

/-- Witness for C6 at two instances, quad 1. -/
theorem generateElementIndices_pattern_witness :
    (generateElementIndices 2).length = 6 * 2
  ∧ ((generateElementIndices 2).drop (6 * 1)).take 6 = quadElementIndices 1
  ∧ (4 * 1 + 3 < 65536 →
      ((generateElementIndices 2).drop (6 * 1)).take 6
        = [4 * 1, 4 * 1, 4 * 1 + 1, 4 * 1 + 2, 4 * 1 + 3, 4 * 1 + 3]) :=
  generateElementIndices_pattern 2 1 (by decide)

/-- Counterexample for C6 as stated: at 16385 instances the six indices of
quad 16384 are 0, 0, 1, 2, 3, 3 because the Uint16Array wraps 4 * 16384 =
65536 around to 0, not the claimed 65536, 65536, 65537, 65538, 65539,
65539. -/
theorem generateElementIndices_wraparound_cex :
    ((generateElementIndices 16385).drop (6 * 16384)).take 6 = [0, 0, 1, 2, 3, 3]
  ∧ [0, 0, 1, 2, 3, 3]
      ≠ [4 * 16384, 4 * 16384, 4 * 16384 + 1, 4 * 16384 + 2,
         4 * 16384 + 3, 4 * 16384 + 3] := by
  constructor
  · rw [generateElementIndices_segment 16385 16384 (by omega)]
    decide
  · decide

/-- Installing a node that is not current stores the node together with the
given drawing context. -/
lemma setCurrentBatchNode_install (s : ManagerState) (A ctxA : Nat)
    (hA : s.currentBatchNode ≠ some A) :
    (setCurrentBatchNode s (some A) (some ctxA)).1
      = ⟨some A, some ctxA⟩ := by
  simp [setCurrentBatchNode, hA]

/-- C1: after the pair A, ctxA is installed, switching to a distinct node B
runs A exactly once with its stored context ctxA and only then installs B
with ctxB; requesting A again while A is current performs no flush and
changes nothing; and clearing via startStandAloneRender runs the pending
node once with its stored context and clears both the node and the context,
while clearing an already clear manager does nothing. -/
theorem setCurrentBatchNode_switch_flushes_once (s : ManagerState)
    (A B ctxA ctxB anyCtx : Nat)
    (hA : s.currentBatchNode ≠ some A) (hAB : A ≠ B) :
    (setCurrentBatchNode
        (setCurrentBatchNode s (some A) (some ctxA)).1 (some B) (some ctxB)).2
      = [RunEvent.run A (some ctxA)]
  ∧ (setCurrentBatchNode
        (setCurrentBatchNode s (some A) (some ctxA)).1 (some B) (some ctxB)).1
      = ⟨some B, some ctxB⟩
  ∧ setCurrentBatchNode
        (setCurrentBatchNode s (some A) (some ctxA)).1 (some A) (some anyCtx)
      = ((setCurrentBatchNode s (some A) (some ctxA)).1, [])
  ∧ startStandAloneRender (setCurrentBatchNode s (some A) (some ctxA)).1
      = (⟨none, none⟩, [RunEvent.run A (some ctxA)])
  ∧ startStandAloneRender ⟨none, none⟩ = (⟨none, none⟩, []) := by
  rw [setCurrentBatchNode_install s A ctxA hA]
  refine ⟨?_, ?_, ?_, ?_, rfl⟩
  · simp [setCurrentBatchNode, hAB]
  · simp [setCurrentBatchNode, hAB]
  · simp [setCurrentBatchNode]
  · simp [startStandAloneRender, setCurrentBatchNode]

/-- Witness for C1 from the clear manager, with nodes 0 and 1 and contexts
10, 11 and 12. -/
theorem setCurrentBatchNode_switch_flushes_once_witness :
    (setCurrentBatchNode
        (setCurrentBatchNode ⟨none, none⟩ (some 0) (some 10)).1 (some 1) (some 11)).2
      = [RunEvent.run 0 (some 10)]
  ∧ (setCurrentBatchNode
        (setCurrentBatchNode ⟨none, none⟩ (some 0) (some 10)).1 (some 1) (some 11)).1
      = ⟨some 1, some 11⟩
  ∧ setCurrentBatchNode
        (setCurrentBatchNode ⟨none, none⟩ (some 0) (some 10)).1 (some 0) (some 12)
      = ((setCurrentBatchNode ⟨none, none⟩ (some 0) (some 10)).1, [])
  ∧ startStandAloneRender (setCurrentBatchNode ⟨none, none⟩ (some 0) (some 10)).1
      = (⟨none, none⟩, [RunEvent.run 0 (some 10)])
  ∧ startStandAloneRender ⟨none, none⟩ = (⟨none, none⟩, []) :=
  setCurrentBatchNode_switch_flushes_once ⟨none, none⟩ 0 1 10 11 12
    (by decide) (by decide)

/-- Counterexample for C3 as stated: with node 0 current under stored
context 5, requesting node 0 with the different context 6 flushes nothing
and leaves the stored context at 5, instead of running node 0 and
installing context 6 as the claim requires. -/
theorem setCurrentBatchNode_same_node_new_context_cex :
    setCurrentBatchNode ⟨some 0, some 5⟩ (some 0) (some 6)
      = (⟨some 0, some 5⟩, [])
  ∧ ([] : List RunEvent) ≠ [RunEvent.run 0 (some 5)]
  ∧ (setCurrentBatchNode ⟨some 0, some 5⟩ (some 0) (some 6)).1.currentBatchDrawingContext
      ≠ some 6 := by
  refine ⟨rfl, by decide, by decide⟩

/-- C3 amended: requesting the node that is already current is a complete
no-op regardless of the drawing context passed: no flush happens and the
stored context is unchanged, so a context switch forces a flush only when
the node changes as well. -/
theorem setCurrentBatchNode_same_node_noop (s : ManagerState) (N : Nat)
    (ctx2 : Option Nat) (hcur : s.currentBatchNode = some N) :
    setCurrentBatchNode s (some N) ctx2 = (s, []) := by
  simp [setCurrentBatchNode, hcur]

/-- Witness for the amended C3: node 0 current under context 5, requested
again with context 6. -/
theorem setCurrentBatchNode_same_node_noop_witness :
    setCurrentBatchNode ⟨some 0, some 5⟩ (some 0) (some 6)
      = (⟨some 0, some 5⟩, []) :=
  setCurrentBatchNode_same_node_noop ⟨some 0, some 5⟩ 0 (some 6) rfl

/-- Lookup skips a prefix in which the key is absent. -/
lemma assocFind_append_of_none (l m : List (String × Nat)) (k : String)
    (h : assocFind l k = none) : assocFind (l ++ m) k = assocFind m k := by
  induction l with
  | nil => rfl
  | cons p rest ih =>
    obtain ⟨pk, pv⟩ := p
    by_cases hk : pk = k
    · simp [assocFind, hk] at h
    · simp [assocFind, hk] at h ⊢
      exact ih h

/-- Lookup returns the first binding of the key, also after appending. -/
lemma assocFind_append_of_some (l m : List (String × Nat)) (k : String)
    (v : Nat) (h : assocFind l k = some v) :
    assocFind (l ++ m) k = some v := by
  induction l with
  | nil => simp [assocFind] at h
  | cons p rest ih =>
    obtain ⟨pk, pv⟩ := p
    by_cases hk : pk = k
    · simp [assocFind, hk] at h ⊢
      exact h
    · simp [assocFind, hk] at h ⊢
      exact ih h

/-- A key can only read as an inherited member when it is one of the
Object.prototype names, so a key whose node-map read was undefined cannot
read as inherited on any map: the inherited constructor-map branch of
getNode cannot execute. -/
lemma propRead_undefined_not_inheritedMember (l m : List (String × Nat))
    (k p : String) (h : propRead l k = PropValue.undefinedProp) :
    propRead m k ≠ PropValue.inheritedMember p := by
  have hk : k ∉ objectPrototypeProps := by
    intro hmem
    rcases hl : assocFind l k with _ | v <;> simp [propRead, hl, hmem] at h
  rcases hm : assocFind m k with _ | v <;> simp [propRead, hm, hk]

/-- Counterexample for C5 as stated: on the completely fresh registry the
name toString was never registered, yet addNode throws the duplicate error,
because the property read of the node map finds the truthy inherited
Object.prototype.toString; and getNode returns that inherited member, not a
registered node. -/
theorem registry_prototype_name_cex :
    assocFind ([] : List (String × Nat)) "toString" = none
  ∧ addNode ⟨[], []⟩ "toString" 1
      = Except.error ("node " ++ "toString" ++ " already exists.")
  ∧ (getNode ⟨[], []⟩ "toString").2 = NodeRef.inheritedMember "toString" := by
  refine ⟨rfl, rfl, rfl⟩

/-- C5 amended: registering a name that is already present always throws
the duplicate error synchronously, for addNode and addNodeConstructor
alike, where present means truthy under the JavaScript property read and
therefore includes the names inherited from Object.prototype, which fail
even on a fresh registry; registering two distinct names that do not
collide with Object.prototype properties always succeeds, and both nodes
are independently retrievable through getNode afterwards. -/
theorem registry_registration_spec (r : Registry) (n1 n2 p : String)
    (v1 v2 w : Nat)
    (h1 : assocFind r.nodes n1 = none) (h2 : assocFind r.nodes n2 = none)
    (hc : assocFind r.nodeConstructors n1 = none) (hne : n1 ≠ n2)
    (hp1 : n1 ∉ objectPrototypeProps) (hp2 : n2 ∉ objectPrototypeProps)
    (hp : p ∈ objectPrototypeProps) (hpo : assocFind r.nodes p = none) :
    addNode r n1 v1 = Except.ok { r with nodes := r.nodes ++ [(n1, v1)] }
  ∧ addNode { r with nodes := r.nodes ++ [(n1, v1)] } n2 v2
      = Except.ok { r with nodes := r.nodes ++ [(n1, v1), (n2, v2)] }
  ∧ addNode { r with nodes := r.nodes ++ [(n1, v1), (n2, v2)] } n1 w
      = Except.error ("node " ++ n1 ++ " already exists.")
  ∧ addNode { r with nodes := r.nodes ++ [(n1, v1), (n2, v2)] } n2 w
      = Except.error ("node " ++ n2 ++ " already exists.")
  ∧ (getNode { r with nodes := r.nodes ++ [(n1, v1), (n2, v2)] } n1).2
      = NodeRef.node v1
  ∧ (getNode { r with nodes := r.nodes ++ [(n1, v1), (n2, v2)] } n2).2
      = NodeRef.node v2
  ∧ addNodeConstructor r n1 w
      = Except.ok { r with nodeConstructors := r.nodeConstructors ++ [(n1, w)] }
  ∧ addNodeConstructor { r with nodeConstructors := r.nodeConstructors ++ [(n1, w)] } n1 w
      = Except.error ("node constructor " ++ n1 ++ " already exists.")
  ∧ addNode r p w = Except.error ("node " ++ p ++ " already exists.") := by
  have find1 : assocFind (r.nodes ++ [(n1, v1), (n2, v2)]) n1 = some v1 := by
    rw [assocFind_append_of_none _ _ _ h1]
    simp [assocFind]
  have find2 : assocFind (r.nodes ++ [(n1, v1), (n2, v2)]) n2 = some v2 := by
    rw [assocFind_append_of_none _ _ _ h2]
    simp [assocFind, hne]
  have findMid : assocFind (r.nodes ++ [(n1, v1)]) n2 = none := by
    rw [assocFind_append_of_none _ _ _ h2]
    simp [assocFind, hne]
  have findCtor : assocFind (r.nodeConstructors ++ [(n1, w)]) n1 = some w := by
    rw [assocFind_append_of_none _ _ _ hc]
    simp [assocFind]
  refine ⟨?_, ?_, ?_, ?_, ?_, ?_, ?_, ?_, ?_⟩
  · simp [addNode, propRead, h1, hp1, truthy]
  · simp [addNode, propRead, findMid, hp2, truthy]
  · simp [addNode, propRead, find1, truthy]
  · simp [addNode, propRead, find2, truthy]
  · simp [getNode, propRead, find1]
  · simp [getNode, propRead, find2]
  · simp [addNodeConstructor, propRead, hc, hp1, truthy]
  · simp [addNodeConstructor, propRead, findCtor, truthy]
  · simp [addNode, propRead, hpo, hp, truthy]

/-- Witness for the amended C5 on the empty registry with the fresh names A
and B and the inherited name toString. -/
theorem registry_registration_spec_witness :
    addNode ⟨[], []⟩ "A" 1
      = Except.ok { nodes := [] ++ [("A", 1)], nodeConstructors := [] }
  ∧ addNode { nodes := [] ++ [("A", 1)], nodeConstructors := [] } "B" 2
      = Except.ok { nodes := [] ++ [("A", 1), ("B", 2)], nodeConstructors := [] }
  ∧ addNode { nodes := [] ++ [("A", 1), ("B", 2)], nodeConstructors := [] } "A" 3
      = Except.error ("node " ++ "A" ++ " already exists.")
  ∧ addNode { nodes := [] ++ [("A", 1), ("B", 2)], nodeConstructors := [] } "B" 3
      = Except.error ("node " ++ "B" ++ " already exists.")
  ∧ (getNode { nodes := [] ++ [("A", 1), ("B", 2)], nodeConstructors := [] } "A").2
      = NodeRef.node 1
  ∧ (getNode { nodes := [] ++ [("A", 1), ("B", 2)], nodeConstructors := [] } "B").2
      = NodeRef.node 2
  ∧ addNodeConstructor ⟨[], []⟩ "A" 3
      = Except.ok { nodes := [], nodeConstructors := [] ++ [("A", 3)] }
  ∧ addNodeConstructor { nodes := [], nodeConstructors := [] ++ [("A", 3)] } "A" 3
      = Except.error ("node constructor " ++ "A" ++ " already exists.")
  ∧ addNode ⟨[], []⟩ "toString" 3
      = Except.error ("node " ++ "toString" ++ " already exists.") :=
  registry_registration_spec ⟨[], []⟩ "A" "B" "toString" 1 2 3 rfl rfl rfl
    (by decide) (by decide) (by decide) (by decide) rfl

/-- Running a handler always leaves the fill level at zero: either it was
zero already and nothing happened, or the flush reset it. -/
lemma run_instanceCount_zero (h : Handler) (ctx : DrawingCtx) :
    (Handler.run h ctx).1.instanceCount = 0 := by
  unfold Handler.run
  split
  · assumption
  · rfl

/-- Running a handler changes neither its capacity nor its per-instance
sizes. -/
lemma run_params (h : Handler) (ctx : DrawingCtx) :
    (Handler.run h ctx).1.instancesPerBatch = h.instancesPerBatch
  ∧ (Handler.run h ctx).1.indicesPerInstance = h.indicesPerInstance := by
  unfold Handler.run
  split <;> exact ⟨rfl, rfl⟩

/-- Draw calls among concatenated event lists add up. -/
lemma drawCount_append (a b : List GLEvent) :
    drawCount (a ++ b) = drawCount a + drawCount b := by
  simp [drawCount, List.filter_append]

/-- Flush-like events among concatenated event lists add up. -/
lemma flushCount_append (a b : List GLEvent) :
    flushCount (a ++ b) = flushCount a + flushCount b := by
  simp [flushCount, List.filter_append]


/-- The fill level after one batch call: the increment, or zero when the
increment reached the capacity and the immediate flush emptied the batch. -/
lemma batch_instanceCount (sys : System) (inp : BatchInput) :
    (System.batch sys inp).1.handler.instanceCount
      = if sys.handler.instanceCount + 1 = sys.handler.instancesPerBatch then 0
        else sys.handler.instanceCount + 1 := by
  dsimp only [System.batch]
  split
  · exact run_instanceCount_zero _ _
  · rfl

/-- One batch call changes neither the capacity nor the node identifier. -/
lemma batch_params (sys : System) (inp : BatchInput) :
    (System.batch sys inp).1.handler.instancesPerBatch
        = sys.handler.instancesPerBatch
  ∧ (System.batch sys inp).1.hid = sys.hid := by
  dsimp only [System.batch]
  split
  · exact ⟨(run_params _ _).1, rfl⟩
  · exact ⟨rfl, rfl⟩

/-- The manager after one batch call: the handler registers itself when it
was empty, and the manager is untouched otherwise. -/
lemma batch_mgr (sys : System) (inp : BatchInput) :
    (System.batch sys inp).1.mgr
      = (if sys.handler.instanceCount = 0 then
          setCurrentBatchNode sys.mgr (some sys.hid) (some inp.ctx.ctxId)
        else (sys.mgr, [])).1 := by
  dsimp only [System.batch]
  split <;> rfl

/-- One batch call preserves the manager invariant: the handler either
registers itself as current or is current already. -/
lemma batch_mgr_good (sys : System) (inp : BatchInput) (hg : MgrGood sys) :
    MgrGood (System.batch sys inp).1 := by
  unfold MgrGood
  rw [batch_mgr, (batch_params sys inp).2]
  rcases hg with h | h
  · by_cases hz : sys.handler.instanceCount = 0 <;>
      simp [hz, setCurrentBatchNode, h]
  · by_cases hz : sys.handler.instanceCount = 0 <;>
      simp [hz, setCurrentBatchNode, h]

/-- The events of one batch call under the manager invariant: nothing when
the batch stays below capacity, and the immediate synchronous flush of this
handler when the increment reaches the capacity. -/
lemma batch_snd (sys : System) (inp : BatchInput) (hg : MgrGood sys) :
    (System.batch sys inp).2
      = if sys.handler.instanceCount + 1 = sys.handler.instancesPerBatch then
          onRunBegin inp.ctx
            ++ [GLEvent.bufferUpdate
                  ((sys.handler.instanceCount + 1) * sys.handler.bytesPerInstance)]
            ++ [GLEvent.draw
                  ((sys.handler.instanceCount + 1) * sys.handler.indicesPerInstance)]
            ++ onRunEnd inp.ctx
        else [] := by
  have evts1 : (if sys.handler.instanceCount = 0 then
        setCurrentBatchNode sys.mgr (some sys.hid) (some inp.ctx.ctxId)
      else (sys.mgr, [])).2 = [] := by
    rcases hg with h | h
    · by_cases hz : sys.handler.instanceCount = 0 <;>
        simp [hz, setCurrentBatchNode, h]
    · by_cases hz : sys.handler.instanceCount = 0 <;>
        simp [hz, setCurrentBatchNode, h]
  dsimp only [System.batch]
  rw [evts1]
  split
  · simp [managerEvents, Handler.run]
  · simp [managerEvents]

/-- Under the manager invariant, one batch call flushes exactly when the
increment reaches the capacity, and the flush is one draw call. -/
lemma batch_counts (sys : System) (inp : BatchInput) (hg : MgrGood sys) :
    flushCount (System.batch sys inp).2
      = (if sys.handler.instanceCount + 1 = sys.handler.instancesPerBatch
         then 1 else 0)
  ∧ drawCount (System.batch sys inp).2
      = (if sys.handler.instanceCount + 1 = sys.handler.instancesPerBatch
         then 1 else 0) := by
  rw [batch_snd sys inp hg]
  by_cases hfull : sys.handler.instanceCount + 1 = sys.handler.instancesPerBatch <;>
    simp [hfull, flushCount, drawCount, onRunBegin, onRunEnd, isFlush, isDraw]

/-- Strict fill-level invariant: starting strictly below capacity under the
manager invariant, any sequence of batch calls stays strictly below
capacity, because the call that reaches capacity flushes before returning;
the capacity itself never changes. -/
lemma batchN_inv (inputs : List BatchInput) (sys : System) (hg : MgrGood sys)
    (hlt : sys.handler.instanceCount < sys.handler.instancesPerBatch) :
    (System.batchN sys inputs).1.handler.instanceCount
        < (System.batchN sys inputs).1.handler.instancesPerBatch
  ∧ (System.batchN sys inputs).1.handler.instancesPerBatch
        = sys.handler.instancesPerBatch
  ∧ MgrGood (System.batchN sys inputs).1 := by
  induction inputs generalizing sys with
  | nil => exact ⟨hlt, rfl, hg⟩
  | cons inp rest ih =>
    have hg1 := batch_mgr_good sys inp hg
    have hcap := (batch_params sys inp).1
    have hcount := batch_instanceCount sys inp
    have hlt1 : (System.batch sys inp).1.handler.instanceCount
        < (System.batch sys inp).1.handler.instancesPerBatch := by
      rw [hcount, hcap]
      by_cases hfull : sys.handler.instanceCount + 1 = sys.handler.instancesPerBatch
      · rw [if_pos hfull]; omega
      · rw [if_neg hfull]; omega
    have step := ih (System.batch sys inp).1 hg1 hlt1
    refine ⟨?_, ?_, ?_⟩
    · exact step.1
    · calc (System.batchN (System.batch sys inp).1 rest).1.handler.instancesPerBatch
          = (System.batch sys inp).1.handler.instancesPerBatch := step.2.1
        _ = sys.handler.instancesPerBatch := hcap
    · exact step.2.2

/-- Below capacity, every batch call of a sequence accumulates one instance
and flushes nothing. -/
lemma batchN_below (inputs : List BatchInput) (sys : System) (hg : MgrGood sys)
    (hroom : sys.handler.instanceCount + inputs.length
        < sys.handler.instancesPerBatch) :
    (System.batchN sys inputs).1.handler.instanceCount
        = sys.handler.instanceCount + inputs.length
  ∧ flushCount (System.batchN sys inputs).2 = 0 := by
  induction inputs generalizing sys with
  | nil => exact ⟨rfl, rfl⟩
  | cons inp rest ih =>
    have hg1 := batch_mgr_good sys inp hg
    have hcap := (batch_params sys inp).1
    have hcount := batch_instanceCount sys inp
    have hfull : ¬ sys.handler.instanceCount + 1 = sys.handler.instancesPerBatch := by
      simp only [List.length_cons] at hroom
      omega
    have hcount1 : (System.batch sys inp).1.handler.instanceCount
        = sys.handler.instanceCount + 1 := by
      rw [hcount, if_neg hfull]
    have hflush : flushCount (System.batch sys inp).2 = 0 := by
      rw [(batch_counts sys inp hg).1, if_neg hfull]
    have hroom1 : (System.batch sys inp).1.handler.instanceCount + rest.length
        < (System.batch sys inp).1.handler.instancesPerBatch := by
      rw [hcount1, hcap]
      simp only [List.length_cons] at hroom
      omega
    have step := ih (System.batch sys inp).1 hg1 hroom1
    constructor
    · rw [System.batchN]
      simp only [List.length_cons]
      rw [step.1, hcount1]
      ring
    · rw [System.batchN]
      dsimp only
      rw [flushCount_append, hflush, step.2]

/-- When a sequence of batch calls exactly fills the batch, the final call
reaches capacity, flushes synchronously with a single draw call, and leaves
the batch empty. -/
lemma batchN_reach (inputs : List BatchInput) (sys : System) (hg : MgrGood sys)
    (hlt : sys.handler.instanceCount < sys.handler.instancesPerBatch)
    (hsum : sys.handler.instanceCount + inputs.length
        = sys.handler.instancesPerBatch) :
    (System.batchN sys inputs).1.handler.instanceCount = 0
  ∧ drawCount (System.batchN sys inputs).2 = 1 := by
  induction inputs generalizing sys with
  | nil => simp only [List.length_nil, Nat.add_zero] at hsum; omega
  | cons inp rest ih =>
    have hg1 := batch_mgr_good sys inp hg
    have hcap := (batch_params sys inp).1
    have hcount := batch_instanceCount sys inp
    simp only [List.length_cons] at hsum
    by_cases hfull : sys.handler.instanceCount + 1 = sys.handler.instancesPerBatch
    · have hrest : rest.length = 0 := by omega
      have hrestnil : rest = [] := List.length_eq_zero.mp hrest
      subst hrestnil
      have hdraw : drawCount (System.batch sys inp).2 = 1 := by
        rw [(batch_counts sys inp hg).2, if_pos hfull]
      constructor
      · rw [System.batchN, System.batchN]
        dsimp only
        rw [hcount, if_pos hfull]
      · rw [System.batchN, System.batchN]
        dsimp only
        rw [List.append_nil, hdraw]
    · have hcount1 : (System.batch sys inp).1.handler.instanceCount
          = sys.handler.instanceCount + 1 := by
        rw [hcount, if_neg hfull]
      have hdraw : drawCount (System.batch sys inp).2 = 0 := by
        rw [(batch_counts sys inp hg).2, if_neg hfull]
      have hlt1 : (System.batch sys inp).1.handler.instanceCount
          < (System.batch sys inp).1.handler.instancesPerBatch := by
        rw [hcount1, hcap]; omega
      have hsum1 : (System.batch sys inp).1.handler.instanceCount + rest.length
          = (System.batch sys inp).1.handler.instancesPerBatch := by
        rw [hcount1, hcap]; omega
      have step := ih (System.batch sys inp).1 hg1 hlt1 hsum1
      constructor
      · rw [System.batchN]
        dsimp only
        exact step.1
      · rw [System.batchN]
        dsimp only
        rw [drawCount_append, hdraw, step.2]

/-- C2: from a fresh handler and a clear manager, under any sequence of
batch calls the fill level never exceeds the capacity, also directly after
any run call; below capacity N batch calls leave instanceCount at N with no
flush of any kind; and the batch call that makes the count reach the
capacity flushes synchronously with exactly one draw call before returning,
leaving the batch empty. -/
theorem batch_accumulation_spec (capacity fpi bpi ipi bufLen n : Nat)
    (ctx : DrawingCtx) (inputs : List BatchInput) (hP : 0 < capacity) :
    ((initSystem capacity fpi bpi ipi bufLen).batchN
        (inputs.take n)).1.handler.instanceCount ≤ capacity
  ∧ (Handler.run ((initSystem capacity fpi bpi ipi bufLen).batchN
        (inputs.take n)).1.handler ctx).1.instanceCount ≤ capacity
  ∧ (inputs.length < capacity →
      ((initSystem capacity fpi bpi ipi bufLen).batchN
          inputs).1.handler.instanceCount = inputs.length
      ∧ flushCount ((initSystem capacity fpi bpi ipi bufLen).batchN
          inputs).2 = 0)
  ∧ (inputs.length = capacity →
      ((initSystem capacity fpi bpi ipi bufLen).batchN
          inputs).1.handler.instanceCount = 0
      ∧ drawCount ((initSystem capacity fpi bpi ipi bufLen).batchN
          inputs).2 = 1) := by
  have hg : MgrGood (initSystem capacity fpi bpi ipi bufLen) := Or.inl rfl
  have hzero : (initSystem capacity fpi bpi ipi bufLen).handler.instanceCount
      = 0 := rfl
  have hcap : (initSystem capacity fpi bpi ipi bufLen).handler.instancesPerBatch
      = capacity := rfl
  refine ⟨?_, ?_, ?_, ?_⟩
  · have inv := batchN_inv (inputs.take n) (initSystem capacity fpi bpi ipi bufLen)
      hg (by rw [hzero, hcap]; exact hP)
    have := inv.1
    rw [inv.2.1, hcap] at this
    omega
  · rw [run_instanceCount_zero]
    exact Nat.zero_le capacity
  · intro hlen
    have below := batchN_below inputs (initSystem capacity fpi bpi ipi bufLen)
      hg (by rw [hzero, hcap]; omega)
    rw [hzero, Nat.zero_add] at below
    exact below
  · intro hlen
    exact batchN_reach inputs (initSystem capacity fpi bpi ipi bufLen) hg
      (by rw [hzero, hcap]; exact hP) (by rw [hzero, hcap]; omega)

/-- Witness for C2 with capacity 2 and a single batch call. -/
theorem batch_accumulation_spec_witness :
    ((initSystem 2 40 160 6 80).batchN
        ([sampleInput].take 1)).1.handler.instanceCount ≤ 2
  ∧ (Handler.run ((initSystem 2 40 160 6 80).batchN
        ([sampleInput].take 1)).1.handler sampleCtx).1.instanceCount ≤ 2
  ∧ ([sampleInput].length < 2 →
      ((initSystem 2 40 160 6 80).batchN
          [sampleInput]).1.handler.instanceCount = [sampleInput].length
      ∧ flushCount ((initSystem 2 40 160 6 80).batchN [sampleInput]).2 = 0)
  ∧ ([sampleInput].length = 2 →
      ((initSystem 2 40 160 6 80).batchN
          [sampleInput]).1.handler.instanceCount = 0
      ∧ drawCount ((initSystem 2 40 160 6 80).batchN [sampleInput]).2 = 1) :=
  batch_accumulation_spec 2 40 160 6 80 1 sampleCtx [sampleInput] (by decide)

/-- C4: running a handler with no pending instances is a no-op that issues
no draw call; otherwise run issues exactly one draw call covering
instanceCount times indicesPerInstance indices and resets instanceCount to
0; hence flushing is idempotent: the immediate second run issues no further
draw call and changes nothing. -/
theorem run_flush_spec (h : Handler) (ctx : DrawingCtx) :
    Handler.run { h with instanceCount := 0 } ctx
      = ({ h with instanceCount := 0 }, [])
  ∧ (Handler.run h ctx).1.instanceCount = 0
  ∧ drawSizes (Handler.run h ctx).2
      = (if h.instanceCount = 0 then []
         else [h.instanceCount * h.indicesPerInstance])
  ∧ drawCount (Handler.run h ctx).2 = min h.instanceCount 1
  ∧ Handler.run (Handler.run h ctx).1 ctx = ((Handler.run h ctx).1, []) := by
  refine ⟨by simp [Handler.run], run_instanceCount_zero h ctx, ?_, ?_, ?_⟩
  · by_cases h0 : h.instanceCount = 0 <;>
      simp [Handler.run, h0, drawSizes, onRunBegin, onRunEnd]
  · by_cases h0 : h.instanceCount = 0
    · simp [Handler.run, h0, drawCount]
    · have hmin : min h.instanceCount 1 = 1 :=
        Nat.min_eq_right (Nat.one_le_iff_ne_zero.mpr h0)
      simp [Handler.run, h0, drawCount, onRunBegin, onRunEnd, isDraw, hmin]
  · by_cases h0 : h.instanceCount = 0 <;>
      simp [Handler.run, h0]
